import Mathlib

/-!
A verification development for the idle-connection prober script
(`neo4j.py`).  The script interactively collects connection parameters,
normalizes the URI, and then, for a fixed ascending schedule of idle
durations, opens a driver connection, runs a trivial read statement,
sleeps for the duration, runs the statement again, and records whether
the connection survived.  It stops at the first failed probe and reports
the largest surviving duration together with a recommendation ten
seconds below it.

The definitions below are a shallow embedding of the script:

* Python string operations used by the script (`strip`, `lower`,
  `replace(pat, '')`, `split('.')[0]`) are modelled on `List Char`;
* `customLogger` is modelled by the pair of message lists it produces
  (console messages and log-file appends); timestamp prefixes, which are
  real-time values, are abstracted away — each list entry is the message
  payload of one console print or one file append;
* `checkConnLife` is modelled as a function of the outcomes of its two
  `tx.run` statements (the only fallible steps expressed by the script),
  producing an event trace (driver open/close, log calls, raw prints,
  sleeps) and an exit description;
* `main` is modelled as a function of the three user inputs and of the
  per-duration statement outcomes, producing the console and log-file
  message lists, the final `workingVal`, and the list of durations for
  which `checkConnLife` was invoked.
-/

/-! ## Python string primitives -/

/-- Characters of `s.strip()`: drop whitespace from both ends. -/
def stripChars (l : List Char) : List Char :=
  ((l.dropWhile Char.isWhitespace).reverse.dropWhile Char.isWhitespace).reverse

/-- Model of Python `s.strip()`. -/
def pyStrip (s : String) : String :=
  ⟨stripChars s.data⟩

/-- Model of Python `s.lower()` (ASCII case folding as used here). -/
def pyLower (s : String) : String :=
  ⟨s.data.map Char.toLower⟩

/-- Model of Python `s.replace(pat, '')`: scan left to right; at each
position, if `pat` matches, delete it and continue scanning after the
match (no rescan of the junction); otherwise keep the character.  The
`skip` counter counts characters of a current match still to delete. -/
def removeAllAux (pat : List Char) : List Char → Nat → List Char
  | [], _ => []
  | _ :: rest, Nat.succ skip => removeAllAux pat rest skip
  | c :: rest, 0 =>
    if pat.isPrefixOf (c :: rest) then removeAllAux pat rest (pat.length - 1)
    else c :: removeAllAux pat rest 0

/-- Model of Python `s.replace(pat, '')` on strings. -/
def pyReplaceEmpty (pat s : String) : String :=
  ⟨removeAllAux pat.data s.data 0⟩

/-- Model of Python `s.split(sep)[0]` for a one-character separator:
the characters before the first occurrence of `sep`. -/
def pySplitHead (sep : Char) (s : String) : String :=
  ⟨s.data.takeWhile (fun c => c ≠ sep)⟩

/-! ## Colour codes and `customLogger` (lines 56-77) -/

/-- ANSI colour code `\033[91m` (RED, line 56). -/
def RED : String := "\x1b[91m"

/-- ANSI colour code `\033[92m` (GREEN, line 57). -/
def GREEN : String := "\x1b[92m"

/-- ANSI colour code `\033[94m` (BLUE, line 58). -/
def BLUE : String := "\x1b[94m"

/-- ANSI colour code `\033[93m` (YELLOW, line 59). -/
def YELLOW : String := "\x1b[93m"

/-- ANSI colour code `\033[96m` (CYAN, line 60). -/
def CYAN : String := "\x1b[96m"

/-- ANSI reset code `\033[0m` (RESET, line 61). -/
def RESET : String := "\x1b[0m"

/-- The colour-stripping loop of `customLogger` (lines 72-74): replace
each of the six codes, in the order of the `colourCodes` list, by the
empty string. -/
def stripColours (txt : String) : String :=
  pyReplaceEmpty RESET (pyReplaceEmpty CYAN (pyReplaceEmpty YELLOW
    (pyReplaceEmpty BLUE (pyReplaceEmpty GREEN (pyReplaceEmpty RED txt)))))

/-- Model of `customLogger(txt, noPrint)` (lines 63-77): the pair
`(console messages, log-file appends)` produced by one call.  An empty
`txt` prints an empty line and appends the empty string; otherwise the
message is printed to the console only when `noPrint is None`, and the
colour-stripped text is always appended to the log file. -/
def customLogger (txt : String) (noPrint : Option Bool) : List String × List String :=
  if txt = "" then ([""], [""])
  else (if noPrint = none then [txt] else [], [stripColours txt])

/-! ## URI normalization (lines 135-142) -/

/-- The scheme/port-stripping part of the URI handling in `main`
(lines 135-136): `NEO4J_URI_in.strip().lower()`, then replacement of
each of `neo4j+s://`, `:7687` and `neo4j+ssc://`, in that order, by the
empty string. -/
def stripCore (s : String) : String :=
  pyReplaceEmpty "neo4j+ssc://" (pyReplaceEmpty ":7687"
    (pyReplaceEmpty "neo4j+s://" (pyLower (pyStrip s))))

/-- The full URI normalization of `main`: strip known schemes and the
default port from the user's input, then re-attach the fixed scheme and
port (line 142), producing `neo4j+ssc://` + core + `:7687`. -/
def normalizeURI (s : String) : String :=
  "neo4j+ssc://" ++ stripCore s ++ ":7687"

/-- Sanity example: a bare Aura host is wrapped with scheme and port. -/
example :
    normalizeURI "a1b2c3d4.databases.neo4j.io" =
      "neo4j+ssc://a1b2c3d4.databases.neo4j.io:7687" := by decide

/-- Sanity example: an already-wrapped URI normalizes to the same value. -/
example :
    normalizeURI "neo4j+ssc://a1b2c3d4.databases.neo4j.io:7687" =
      "neo4j+ssc://a1b2c3d4.databases.neo4j.io:7687" := by decide

/-! ## The connection probe `checkConnLife` (lines 79-115)

The driver, session and transaction objects are external; the script's
only fallible steps expressed in its own control flow are the two
`tx.run("RETURN 1 AS n")` statements (lines 86 and 101).  A `ProbeEnv`
records the outcome the environment gives to each statement, together
with the rendering of the exception detail `e` used by the
`except Exception` handler's message (line 111). -/

/-- Outcome of one `tx.run` statement: success, a
`neo4j.exceptions.SessionExpired`, or any other exception. -/
inductive StmtOutcome where
  | ok
  | sessionExpired
  | otherError
deriving DecidableEq

/-- Environment of one probe: outcomes of the first and second
statement, and the string rendering of the exception `e` (used only by
the `except Exception` handler's log message). -/
structure ProbeEnv where
  first : StmtOutcome
  second : StmtOutcome
  errDetail : String
deriving DecidableEq

/-- How `checkConnLife` ends: a normal return carrying `idlePass`, or a
process termination.  The script's `except Exception` handler writes the
bare name `exit` (line 112) without calling it, which evaluates the
builtin and discards it, so `processExited` is never produced — control
always falls through to `finally` and the normal `return idlePass`. -/
inductive ProbeExit where
  | returned (idlePass : Bool)
  | processExited
deriving DecidableEq

/-- Observable events of one `checkConnLife` call, in order: the driver
construction (line 82, consuming URI, user and password as the auth
argument), driver closure (the `with` block's exit and the `finally:
driver.close()` of line 114), a `customLogger(txt)` call, a raw
`print` (the minute countdown of line 95), and a `sleep(secs)`. -/
inductive Event where
  | driverOpened (uri user pw : String)
  | driverClosed
  | log (txt : String)
  | consolePrint (txt : String)
  | slept (secs : Nat)
deriving DecidableEq

/-- The chunked-sleep loop of lines 91-96: starting from
`sleepMinsLeft` minutes, sleep 60 seconds, decrement, and print a
countdown whenever minutes remain. -/
def chunkSleepEvents : Nat → List Event
  | 0 => []
  | Nat.succ m =>
    Event.slept 60 ::
      (if 0 < m then
        [Event.consolePrint ("Still running. Sleeping for " ++ toString m ++ " more minute(s) ...")]
      else []) ++ chunkSleepEvents m

/-- The sleep block of lines 87-99: for `connIdleTime > 120`, announce
and sleep in 60-second chunks (`int(connIdleTime/60)` of them) followed
by a final sleep of `connIdleTime % 60` seconds; otherwise announce and
sleep once for the full duration. -/
def sleepEvents (t : Nat) : List Event :=
  if 120 < t then
    Event.log (GREEN ++ "Initial connection Successful. Sleeping for " ++
        toString (t / 60) ++ " minutes ..." ++ RESET) ::
      (chunkSleepEvents (t / 60) ++ [Event.slept (t % 60)])
  else
    [Event.log (GREEN ++ "Initial connection Successful. Sleeping for " ++
        toString t ++ " seconds ..." ++ RESET),
     Event.slept t]

/-- Log message of the `except neo4j.exceptions.SessionExpired` handler
(line 105). -/
def sessionExpiredMsg (t : Nat) : String :=
  RED ++ "Session Expired for connection with idle time of " ++ toString t ++
    " seconds " ++ RESET

/-- Log message of the `except Exception as e` handler (line 111). -/
def otherErrMsg (errDetail : String) : String :=
  RED ++ "Different Error encountered. Exiting\nError: " ++ errDetail ++ RESET

/-- Events of `checkConnLife` after the driver has been constructed.
On an exception, the `with` blocks close the driver on the way out
(first `driverClosed`), then the matching handler logs, then `finally`
calls `driver.close()` again (second `driverClosed`).  On success the
`with` exit and `finally` produce the two closes. -/
def checkConnTail (t : Nat) (e : ProbeEnv) : List Event :=
  match e.first with
  | .ok =>
    sleepEvents t ++ [Event.log "Awake now. Checking the connection ..."] ++
      match e.second with
      | .ok => [Event.driverClosed, Event.driverClosed]
      | .sessionExpired =>
        [Event.driverClosed, Event.log (sessionExpiredMsg t), Event.driverClosed]
      | .otherError =>
        [Event.driverClosed, Event.log (otherErrMsg e.errDetail), Event.driverClosed]
  | .sessionExpired =>
    [Event.driverClosed, Event.log (sessionExpiredMsg t), Event.driverClosed]
  | .otherError =>
    [Event.driverClosed, Event.log (otherErrMsg e.errDetail), Event.driverClosed]

/-- Final value of the `idlePass` flag of `checkConnLife`: initialized
`False` (line 80), set `True` only after the second statement succeeds
(line 102); the `SessionExpired` handler resets it to `False`
(line 106) and the generic handler leaves it `False`. -/
def checkConnIdlePass (_t : Nat) (e : ProbeEnv) : Bool :=
  match e.first with
  | .ok =>
    match e.second with
    | .ok => true
    | .sessionExpired => false
    | .otherError => false
  | .sessionExpired => false
  | .otherError => false

/-- One full `checkConnLife` call: its event trace and its exit. -/
structure ProbeRun where
  events : List Event
  exit : ProbeExit
deriving DecidableEq

/-- Model of `checkConnLife(NEO4J_URI, NEO4J_USER, NEO4J_PASS,
connIdleTime)` (lines 79-115).  The credentials are consumed only by the
driver construction (line 82); every path ends in a normal return of
`idlePass` because the bare `exit` of line 112 does not terminate the
process. -/
def checkConnLifeRun (uri user pw : String) (t : Nat) (e : ProbeEnv) : ProbeRun :=
  { events := Event.driverOpened uri user pw :: checkConnTail t e,
    exit := ProbeExit.returned (checkConnIdlePass t e) }

/-- The sleep durations performed during a probe run, in order. -/
def sleptDurations (r : ProbeRun) : List Nat :=
  r.events.filterMap (fun ev =>
    match ev with
    | .slept n => some n
    | _ => none)

/-- Whether a driver connection is live after a trace: `driverOpened`
makes it live, `driverClosed` releases it. -/
def driverLiveAfter (evs : List Event) : Bool :=
  evs.foldl (fun live ev =>
    match ev with
    | .driverOpened _ _ _ => true
    | .driverClosed => false
    | _ => live) false

/-- Console messages of one event. -/
def eventConsole (ev : Event) : List String :=
  match ev with
  | .log txt => (customLogger txt none).1
  | .consolePrint txt => [txt]
  | _ => []

/-- Log-file appends of one event. -/
def eventFile (ev : Event) : List String :=
  match ev with
  | .log txt => (customLogger txt none).2
  | _ => []

/-! ## The schedule runner `main` (lines 117-158) -/

/-- The fixed idle-duration schedule `idlesToCheck` (line 119). -/
def idlesToCheck : List Nat :=
  [30, 60, 90, 120, 180, 240, 300, 600, 900, 1200, 1800, 2400, 2700, 3010]

/-- Whether the probe for duration `t` reports success, i.e. the value
`connectSuccess` that `main` branches on (lines 148-149), given the
per-duration environment. -/
def probeOk (env : Nat → ProbeEnv) (t : Nat) : Bool :=
  checkConnIdlePass t (env t)

/-- Result of the probing loop of `main` (lines 146-154): the final
`workingVal`, the durations for which `checkConnLife` was invoked (in
order), and the console / log-file messages the loop produced. -/
structure LoopOut where
  workingVal : Nat
  probed : List Nat
  console : List String
  file : List String
deriving DecidableEq

/-- The success message of line 150. -/
def validMsg (t : Nat) : String :=
  GREEN ++ "The connection was valid after " ++ toString t ++
    " seconds of idle time..." ++ RESET

/-- The failure message of line 153. -/
def failMsg (t : Nat) : String :=
  RED ++ "The connection FAILED after " ++ toString t ++
    " seconds of idle time..." ++ RESET

/-- The per-iteration intent message of line 147. -/
def checkingMsg (t : Nat) : String :=
  "Checking connection lifetime of " ++ toString t ++ " seconds"

/-- The probing loop of `main` (lines 146-154): for each duration, log
intent, call `checkConnLife`, and on success update
`workingVal = max(workingVal, connIdleTime)` (line 151), log, log an
empty line and continue; on failure log and `break` (line 154). -/
def mainLoop (uri user pw : String) (env : Nat → ProbeEnv) :
    List Nat → Nat → LoopOut
  | [], w => ⟨w, [], [], []⟩
  | t :: rest, w =>
    let r := checkConnLifeRun uri user pw t (env t)
    let runConsole := r.events.flatMap eventConsole
    let runFile := r.events.flatMap eventFile
    if probeOk env t then
      let tail := mainLoop uri user pw env rest (max w t)
      ⟨tail.workingVal, t :: tail.probed,
        (customLogger (checkingMsg t) none).1 ++ runConsole ++
          (customLogger (validMsg t) none).1 ++ (customLogger "" none).1 ++
          tail.console,
        (customLogger (checkingMsg t) none).2 ++ runFile ++
          (customLogger (validMsg t) none).2 ++ (customLogger "" none).2 ++
          tail.file⟩
    else
      ⟨w, [t],
        (customLogger (checkingMsg t) none).1 ++ runConsole ++
          (customLogger (failMsg t) none).1,
        (customLogger (checkingMsg t) none).2 ++ runFile ++
          (customLogger (failMsg t) none).2⟩

/-- The integer value reported as the recommendation (line 156):
`workingVal - 10` with Python integer semantics, so it is `-10` when
`workingVal` is `0`. -/
def recommendedValue (workingVal : Nat) : Int :=
  (workingVal : Int) - 10

/-- The three closing report messages of lines 156-158, as passed to
`customLogger` (colour codes included). -/
def finalReport (workingVal : Nat) : List String :=
  [GREEN ++ "Recommended Connection lifetime : " ++
      toString (recommendedValue workingVal) ++ " seconds or lesser" ++ RESET,
   GREEN ++ "The longest running valid connection was " ++
      toString workingVal ++ " seconds old." ++ RESET,
   GREEN ++ "The recommended value is 10 seconds lesser than this " ++ RESET]

/-- The opening announcement of lines 121-122 (an f-string continued
across a source line break, which contributes the seventeen spaces of
the second line's indentation). -/
def introMsg : String :=
  GREEN ++
    "This script will check if connections idle after the following lifetime values are still usable(seconds):" ++
    RESET ++ "\n                 " ++
    String.intercalate ", " (idlesToCheck.map toString)

/-- The connection-URI guidance printed by lines 124-126. -/
def connExample : String :=
  "\nIf you see a " ++ YELLOW ++ "'Private URI'" ++ RESET ++
    ",for the instance in the Aura Console, please enter that as Public Traffic has likely been disabled for your instance." ++
    "\n\n" ++ YELLOW ++ "Examples for expected conenction URI:" ++ RESET ++
    "\nneo4j+s://a1b2c3d4.databases.neo4j.io\nneo4j+s://a1b2c3d4.production-orch-0001.neo4j.io"

/-- The URI input prompt of line 127. -/
def uriPrompt : String :=
  "\n" ++ YELLOW ++
    "Please enter the Connection URI for the instance as seen in the Aura Console:" ++
    RESET ++ "\n\n"

/-- The username prompt of line 139. -/
def userPrompt (dbid : String) : String :=
  YELLOW ++ "Please enter your username for " ++ dbid ++ ":" ++ RESET ++ "\n"

/-- The password prompt of line 140 (shown by `getpass`; the secret
itself is entered without echo). -/
def passPrompt (user dbid : String) : String :=
  YELLOW ++ "Please enter the password for user " ++ user ++ " for " ++ dbid ++
    " (Hidden):" ++ RESET ++ "\n"

/-- The log-file appends `main` produces before the probing loop starts
(lines 120-145): the empty line and announcement, the file-only URI and
DBID entries (`noPrint=False`, lines 129 and 138), and the
"Attempting to connect" block. -/
def mainRunFilePre (uriIn : String) : List String :=
  (customLogger "" none).2 ++
    (customLogger introMsg none).2 ++
    (customLogger ("URI entered by the user : " ++ uriIn) (some false)).2 ++
    (customLogger ("DBID : " ++ pySplitHead '.' (stripCore uriIn)) (some false)).2 ++
    (customLogger "" none).2 ++
    (customLogger ("Attempting to connect to " ++ normalizeURI uriIn) none).2 ++
    (customLogger "" none).2

/-- Result of one whole run of `main`: console messages, log-file
appends, the final `workingVal`, and the durations probed. -/
structure MainRun where
  console : List String
  file : List String
  workingVal : Nat
  probed : List Nat
deriving DecidableEq

/-- Model of `main()` (lines 117-158) as a function of the three raw
user inputs (URI, username, password — the latter two are `.strip()`ed
by the script, lines 139-140) and of the per-duration probe
environment.  Console entries are prompts, raw prints and `customLogger`
console output; file entries are `customLogger` appends.  The URI log
entry of line 129 and the DBID entry of line 138 are file-only
(`noPrint=False`). -/
def mainRun (uriIn userIn pwIn : String) (env : Nat → ProbeEnv) : MainRun :=
  let core := stripCore uriIn
  let dbid := pySplitHead '.' core
  let user := pyStrip userIn
  let pw := pyStrip pwIn
  let uri := normalizeURI uriIn
  let uriLogMsg := "URI entered by the user : " ++ uriIn
  let dbidMsg := "DBID : " ++ dbid
  let attemptMsg := "Attempting to connect to " ++ uri
  let loop := mainLoop uri user pw env idlesToCheck 0
  { console :=
      (customLogger "" none).1 ++ (customLogger introMsg none).1 ++
        [connExample, uriPrompt] ++
        (customLogger uriLogMsg (some false)).1 ++
        (customLogger dbidMsg (some false)).1 ++
        [userPrompt dbid, passPrompt user dbid] ++
        (customLogger "" none).1 ++ (customLogger attemptMsg none).1 ++
        (customLogger "" none).1 ++ loop.console ++
        (finalReport loop.workingVal),
    file :=
      mainRunFilePre uriIn ++ loop.file ++
        (finalReport loop.workingVal).map stripColours,
    workingVal := loop.workingVal,
    probed := loop.probed }

/-! ## Helper lemmas about the string primitives -/

/-- Unfolding of `String.data` on `String.mk`. -/
theorem stringDataMk (l : List Char) : (String.mk l).data = l := rfl

/-- `dropWhile` is the identity on a list none of whose elements satisfy
the predicate. -/
theorem dropWhile_eq_self_of_forall {p : Char → Bool} {l : List Char}
    (h : ∀ c ∈ l, p c = false) : l.dropWhile p = l := by
  cases l with
  | nil => rfl
  | cons a t => simp [List.dropWhile, h a (List.mem_cons_self a t)]

/-- Stripping is the identity on a list with no whitespace characters. -/
theorem stripChars_eq_self {l : List Char}
    (h : ∀ c ∈ l, c.isWhitespace = false) : stripChars l = l := by
  unfold stripChars
  rw [dropWhile_eq_self_of_forall h, dropWhile_eq_self_of_forall, List.reverse_reverse]
  intro c hc
  exact h c (List.mem_reverse.mp hc)

/-- `map` is the identity when the function fixes every element. -/
theorem map_eq_self_of {f : Char → Char} {l : List Char}
    (h : ∀ c ∈ l, f c = c) : l.map f = l := by
  induction l with
  | nil => rfl
  | cons a t ih => simp_all

/-- A matching pattern is contained, element-wise, in the list it
matches at the front. -/
theorem isPrefixOf_subset : ∀ {l₁ l₂ : List Char},
    l₁.isPrefixOf l₂ = true → ∀ c ∈ l₁, c ∈ l₂ := by
  intro l₁
  induction l₁ with
  | nil => intro l₂ _ c hc; exact absurd hc (List.not_mem_nil c)
  | cons a t ih =>
    intro l₂ h c hc
    cases l₂ with
    | nil => simp [List.isPrefixOf] at h
    | cons b u =>
      simp only [List.isPrefixOf, Bool.and_eq_true, beq_iff_eq] at h
      rcases List.mem_cons.mp hc with hca | hct
      · exact hca ▸ h.1 ▸ List.mem_cons_self b u
      · exact List.mem_cons_of_mem b (ih h.2 c hct)

/-- `replace(pat, "")` is the identity when some character of the
pattern does not occur in the subject. -/
theorem removeAllAux_eq_self_of_not_mem {pat l : List Char} {a : Char}
    (hch : a ∈ pat) (h : a ∉ l) : removeAllAux pat l 0 = l := by
  induction l with
  | nil => rfl
  | cons c t ih =>
    have hpre : pat.isPrefixOf (c :: t) = false := by
      cases hp : pat.isPrefixOf (c :: t) with
      | false => rfl
      | true => exact absurd (isPrefixOf_subset hp a hch) h
    rw [removeAllAux, hpre]
    simp only [Bool.false_eq_true, if_false]
    rw [ih (fun hm => h (List.mem_cons_of_mem c hm))]

/-- The skip counter deletes exactly the given number of characters. -/
theorem removeAllAux_skip_append (pat : List Char) :
    ∀ (t l : List Char), removeAllAux pat (t ++ l) t.length = removeAllAux pat l 0 := by
  intro t
  induction t with
  | nil => intro l; rfl
  | cons a u ih => intro l; simpa [removeAllAux] using ih l

/-- A list matches at the front of itself followed by anything. -/
theorem isPrefixOf_append_self : ∀ (l t : List Char), l.isPrefixOf (l ++ t) = true := by
  intro l
  induction l with
  | nil => intro t; simp [List.isPrefixOf]
  | cons a u ih => intro t; simp [List.isPrefixOf, ih]

/-- Scanning step at a position where the pattern does not match. -/
theorem removeAllAux_cons_of_not_pre {pat : List Char} {c : Char} {l : List Char}
    (h : pat.isPrefixOf (c :: l) = false) :
    removeAllAux pat (c :: l) 0 = c :: removeAllAux pat l 0 := by
  rw [removeAllAux, h]
  simp

/-- The scan passes unchanged over a region containing no occurrence of
the pattern head. -/
theorem removeAllAux_walk {p : Char} {q : List Char} :
    ∀ {t : List Char} (l : List Char), (∀ c ∈ t, (p == c) = false) →
      removeAllAux (p :: q) (t ++ l) 0 = t ++ removeAllAux (p :: q) l 0 := by
  intro t
  induction t with
  | nil => intro l _; rfl
  | cons a u ih =>
    intro l h
    have hne : (p == a) = false := h a (List.mem_cons_self a u)
    have hpre : (p :: q).isPrefixOf (a :: (u ++ l)) = false := by
      simp [List.isPrefixOf, hne]
    rw [List.cons_append, removeAllAux_cons_of_not_pre hpre,
      ih l (fun c hc => h c (List.mem_cons_of_mem a hc)), List.cons_append]

/-- The scan deletes an occurrence of the pattern at the front. -/
theorem removeAllAux_self_append (c : Char) (cs l : List Char) :
    removeAllAux (c :: cs) ((c :: cs) ++ l) 0 = removeAllAux (c :: cs) l 0 := by
  have hpre : (c :: cs).isPrefixOf (c :: (cs ++ l)) = true := by
    have h1 := isPrefixOf_append_self (c :: cs) l
    simp only [List.cons_append] at h1
    exact h1
  rw [List.cons_append, removeAllAux, hpre]
  simp only [if_true, List.length_cons, Nat.add_sub_cancel]
  exact removeAllAux_skip_append (c :: cs) cs l

/-! ## Idempotence of the URI normalization -/

/-- The first replacement of `stripCore` leaves a wrapped URI
unchanged when the host part contains no slash: any occurrence of the
stripped scheme would need a slash outside the concrete scheme
region. -/
theorem removal1 {hd : List Char} (h : ∀ c ∈ hd, c ≠ '/') :
    removeAllAux "neo4j+s://".data ("neo4j+ssc://".data ++ (hd ++ ":7687".data)) 0 =
      "neo4j+ssc://".data ++ (hd ++ ":7687".data) := by
  have hP1 : ("neo4j+s://".data) = 'n' :: ['e','o','4','j','+','s',':','/','/'] := rfl
  have hS3 : ("neo4j+ssc://".data) = 'n' :: ['e','o','4','j','+','s','s','c',':','/','/'] := rfl
  rw [hP1, hS3, List.cons_append]
  have h0 : ('n' :: ['e','o','4','j','+','s',':','/','/']).isPrefixOf
      ('n' :: (['e','o','4','j','+','s','s','c',':','/','/'] ++ (hd ++ ":7687".data))) = false := by
    simp [List.isPrefixOf]
  rw [removeAllAux_cons_of_not_pre h0]
  rw [removeAllAux_walk (hd ++ ":7687".data) (by decide)]
  rw [removeAllAux_eq_self_of_not_mem (a := '/') (by decide)]
  intro hmem
  rcases List.mem_append.mp hmem with hm | hm
  · exact h '/' hm rfl
  · revert hm; decide

/-- The second replacement of `stripCore` deletes exactly the trailing
port of a wrapped URI when the host part contains no colon. -/
theorem removal2 {hd : List Char} (h : ∀ c ∈ hd, c ≠ ':') :
    removeAllAux ":7687".data ("neo4j+ssc://".data ++ (hd ++ ":7687".data)) 0 =
      "neo4j+ssc://".data ++ hd := by
  have hS3 : ("neo4j+ssc://".data) =
      ['n','e','o','4','j','+','s','s','c'] ++ (':' :: '/' :: '/' :: []) := rfl
  have hP2 : (":7687".data) = ':' :: ['7','6','8','7'] := rfl
  rw [hS3, hP2, List.append_assoc]
  have hw := removeAllAux_walk (p := ':') (q := ['7','6','8','7'])
    (t := ['n','e','o','4','j','+','s','s','c'])
    ((':' :: '/' :: '/' :: []) ++ (hd ++ (':' :: ['7','6','8','7']))) (by decide)
  rw [hw]
  simp only [List.cons_append, List.nil_append]
  have h1 : (':' :: ['7','6','8','7']).isPrefixOf
      (':' :: '/' :: '/' :: (hd ++ (':' :: ['7','6','8','7']))) = false := by
    simp [List.isPrefixOf]
  rw [removeAllAux_cons_of_not_pre h1]
  have h2 : (':' :: ['7','6','8','7']).isPrefixOf
      ('/' :: '/' :: (hd ++ (':' :: ['7','6','8','7']))) = false := by
    simp [List.isPrefixOf]
  rw [removeAllAux_cons_of_not_pre h2]
  have h3 : (':' :: ['7','6','8','7']).isPrefixOf
      ('/' :: (hd ++ (':' :: ['7','6','8','7']))) = false := by
    simp [List.isPrefixOf]
  rw [removeAllAux_cons_of_not_pre h3]
  have h4 : ∀ c ∈ hd, ((':' : Char) == c) = false := fun c hc =>
    beq_eq_false_iff_ne.mpr (fun he => h c hc he.symm)
  have hw2 := removeAllAux_walk (p := ':') (q := ['7','6','8','7'])
    (t := hd) (':' :: ['7','6','8','7']) h4
  rw [hw2]
  have h5 : removeAllAux (':' :: ['7','6','8','7']) (':' :: ['7','6','8','7']) 0 = [] := by
    decide
  rw [h5]
  simp

/-- The third replacement of `stripCore` deletes exactly the leading
scheme when the host part contains no colon. -/
theorem removal3 {hd : List Char} (h : ∀ c ∈ hd, c ≠ ':') :
    removeAllAux "neo4j+ssc://".data ("neo4j+ssc://".data ++ hd) 0 = hd := by
  have hS3 : ("neo4j+ssc://".data) = 'n' :: ['e','o','4','j','+','s','s','c',':','/','/'] := rfl
  rw [hS3, removeAllAux_self_append]
  refine removeAllAux_eq_self_of_not_mem (a := ':') (by decide) ?_
  intro hmem
  exact h ':' hmem rfl

/-- String-level identity case of `replace`. -/
theorem pyReplaceEmpty_eq_self {pat s : String} {a : Char}
    (hch : a ∈ pat.data) (hns : a ∉ s.data) : pyReplaceEmpty pat s = s := by
  apply String.ext
  simp only [pyReplaceEmpty, stringDataMk]
  exact removeAllAux_eq_self_of_not_mem hch hns

/-- `stripCore` is the identity on a host with no colon, no whitespace
and only case-stable characters. -/
theorem stripCore_eq_self {s : String}
    (h : ∀ c ∈ s.data, c ≠ ':' ∧ c.isWhitespace = false ∧ c.toLower = c) :
    stripCore s = s := by
  have hns : (':' : Char) ∉ s.data := fun hm => (h ':' hm).1 rfl
  have hstrip : pyStrip s = s := by
    apply String.ext
    exact stripChars_eq_self (fun c hc => (h c hc).2.1)
  have hlower : pyLower s = s := by
    apply String.ext
    exact map_eq_self_of (fun c hc => (h c hc).2.2)
  unfold stripCore
  rw [hstrip, hlower, pyReplaceEmpty_eq_self (a := ':') (by decide) hns,
    pyReplaceEmpty_eq_self (a := ':') (by decide) hns,
    pyReplaceEmpty_eq_self (a := ':') (by decide) hns]

/-- Idempotence of the URI normalization on hosts free of colon,
slash, whitespace and uppercase characters. -/
theorem normalizeURI_idem {s : String}
    (h : ∀ c ∈ s.data, c ≠ ':' ∧ c ≠ '/' ∧ c.isWhitespace = false ∧ c.toLower = c) :
    normalizeURI (normalizeURI s) = normalizeURI s := by
  have hcore : stripCore s = s :=
    stripCore_eq_self (fun c hc => ⟨(h c hc).1, (h c hc).2.2.1, (h c hc).2.2.2⟩)
  have hnorm : normalizeURI s = "neo4j+ssc://" ++ s ++ ":7687" := by
    unfold normalizeURI
    rw [hcore]
  have hdata : (normalizeURI s).data = "neo4j+ssc://".data ++ (s.data ++ ":7687".data) := by
    rw [hnorm, String.data_append, String.data_append, List.append_assoc]
  have hconc1 : ∀ c ∈ "neo4j+ssc://".data, c.isWhitespace = false ∧ c.toLower = c := by
    decide
  have hconc2 : ∀ c ∈ ":7687".data, c.isWhitespace = false ∧ c.toLower = c := by
    decide
  have hall : ∀ c ∈ (normalizeURI s).data,
      c.isWhitespace = false ∧ c.toLower = c := by
    rw [hdata]
    intro c hc
    rcases List.mem_append.mp hc with hm | hm
    · exact hconc1 c hm
    rcases List.mem_append.mp hm with hm2 | hm2
    · exact ⟨(h c hm2).2.2.1, (h c hm2).2.2.2⟩
    · exact hconc2 c hm2
  have hstrip2 : pyStrip (normalizeURI s) = normalizeURI s := by
    apply String.ext
    exact stripChars_eq_self (fun c hc => (hall c hc).1)
  have hlower2 : pyLower (normalizeURI s) = normalizeURI s := by
    apply String.ext
    exact map_eq_self_of (fun c hc => (hall c hc).2)
  have hne : ∀ c ∈ s.data, c ≠ ':' := fun c hc => (h c hc).1
  have hneS : ∀ c ∈ s.data, c ≠ '/' := fun c hc => (h c hc).2.1
  have hcore2 : stripCore (normalizeURI s) = s := by
    unfold stripCore
    rw [hstrip2, hlower2]
    apply String.ext
    simp only [pyReplaceEmpty, stringDataMk]
    rw [hdata, removal1 hneS, removal2 hne, removal3 hne]
  show "neo4j+ssc://" ++ stripCore (normalizeURI s) ++ ":7687" = normalizeURI s
  rw [hcore2, hnorm]


/-! ## Helper lemmas about the probing loop -/

/-- The durations probed by the loop are the leading successes followed
by the first failing duration, when one exists. -/
theorem mainLoop_probed (uri user pw : String) (env : Nat → ProbeEnv) (l : List Nat) :
    ∀ w : Nat, (mainLoop uri user pw env l w).probed =
      l.takeWhile (probeOk env) ++ (l.dropWhile (probeOk env)).take 1 := by
  induction l with
  | nil => intro w; simp [mainLoop]
  | cons t rest ih =>
    intro w
    cases h : probeOk env t with
    | true => simp [mainLoop, h, ih]
    | false => simp [mainLoop, h]

/-- Shifting an element from the fold seed to the front of a maximum
fold. -/
theorem foldr_max_shift (t w : Nat) (M : List Nat) :
    List.foldr max (max w t) M = max t (List.foldr max w M) := by
  induction M with
  | nil => simp [Nat.max_comm]
  | cons a M ih => simp [List.foldr, ih, Nat.max_left_comm]

/-- The final `workingVal` is the maximum fold of the leading
successes over the initial value. -/
theorem mainLoop_workingVal (uri user pw : String) (env : Nat → ProbeEnv) (l : List Nat) :
    ∀ w : Nat, (mainLoop uri user pw env l w).workingVal =
      (l.takeWhile (probeOk env)).foldr max w := by
  induction l with
  | nil => intro w; simp [mainLoop]
  | cons t rest ih =>
    intro w
    cases h : probeOk env t with
    | true => simp [mainLoop, h, ih, foldr_max_shift]
    | false => simp [mainLoop, h]

/-- The probed trace is an initial segment of the schedule: one past
the leading successes. -/
theorem takeWhile_append_take_one (p : Nat → Bool) (l : List Nat) :
    l.takeWhile p ++ (l.dropWhile p).take 1 = l.take ((l.takeWhile p).length + 1) := by
  induction l with
  | nil => rfl
  | cons a rest ih =>
    cases h : p a with
    | true => simp [List.takeWhile_cons, List.dropWhile_cons, h, ih]
    | false => simp [List.takeWhile_cons, List.dropWhile_cons, h]

/-- The leading-success segment stops no later than any failing
index. -/
theorem takeWhile_length_le (p : Nat → Bool) :
    ∀ (l : List Nat) (k : Nat) (hk : k < l.length),
      p (l.get ⟨k, hk⟩) = false → (l.takeWhile p).length ≤ k := by
  intro l
  induction l with
  | nil => intro k hk; simp at hk
  | cons a rest ih =>
    intro k hk hfail
    cases k with
    | zero =>
      simp only [List.get] at hfail
      simp [List.takeWhile_cons, hfail]
    | succ k =>
      cases h : p a with
      | true =>
        have hrec := ih k (Nat.lt_of_succ_lt_succ hk) hfail
        simp [List.takeWhile_cons, h]
        omega
      | false => simp [List.takeWhile_cons, h]

/-- In a duplicate-free list, an element at or beyond an index does not
occur in the initial segment below it. -/
theorem get_not_mem_take {l : List Nat} (hnd : l.Nodup) {n j : Nat}
    (hn : n ≤ j) (hj : j < l.length) : l.get ⟨j, hj⟩ ∉ l.take n := by
  intro hmem
  have hsplit : l.take n ++ l.drop n = l := List.take_append_drop n l
  have hnd2 : (l.take n ++ l.drop n).Nodup := by rw [hsplit]; exact hnd
  have hdisj := (List.nodup_append.mp hnd2).2.2
  have hdrop : l.get ⟨j, hj⟩ ∈ l.drop n := by
    have hlen : j - n < (l.drop n).length := by
      simp [List.length_drop]
      omega
    have heq : (l.drop n).get ⟨j - n, hlen⟩ = l.get ⟨j, hj⟩ := by
      simp only [List.get_eq_getElem]
      rw [List.getElem_drop]
      congr 1
      omega
    rw [← heq]
    exact List.get_mem _ _ _
  exact hdisj hmem hdrop

/-! ## Helper lemmas about the probe events -/

/-- The chunked-sleep loop sleeps 60 seconds exactly once per counted
minute. -/
theorem chunkSleep_filterMap (m : Nat) :
    (chunkSleepEvents m).filterMap (fun ev => match ev with
      | .slept n => some n
      | _ => none) = List.replicate m 60 := by
  induction m with
  | zero => rfl
  | succ m ih =>
    by_cases hm : 0 < m <;> simp [chunkSleepEvents, hm, ih, List.replicate_succ]

/-- Closed form of the sleeps performed by a probe whose first
statement succeeds. -/
theorem sleptDurations_run (u s p : String) (t : Nat) (e : ProbeEnv)
    (hfirst : e.first = .ok) :
    sleptDurations (checkConnLifeRun u s p t e) =
      if 120 < t then List.replicate (t / 60) 60 ++ [t % 60] else [t] := by
  unfold sleptDurations checkConnLifeRun checkConnTail
  rw [hfirst]
  by_cases ht : 120 < t <;> cases e.second <;>
    simp [sleepEvents, ht, chunkSleep_filterMap, List.filterMap_append]

/-- After any probe trace the driver is closed: every branch of the
trace ends with a `driverClosed` event. -/
theorem driverLive_run (u s p : String) (t : Nat) (e : ProbeEnv) :
    driverLiveAfter (checkConnLifeRun u s p t e).events = false := by
  unfold driverLiveAfter checkConnLifeRun checkConnTail
  cases e.first <;> cases e.second <;>
    simp [sleepEvents, List.foldl_append]

/-- The loop result does not depend on the credentials: they are
consumed only by the driver construction, whose event carries them, and
no output projection reads that event. -/
theorem mainLoop_creds (uri₁ user₁ pw₁ uri₂ user₂ pw₂ : String)
    (env : Nat → ProbeEnv) (l : List Nat) :
    ∀ w : Nat, mainLoop uri₁ user₁ pw₁ env l w = mainLoop uri₂ user₂ pw₂ env l w := by
  induction l with
  | nil => intro w; rfl
  | cons t rest ih =>
    intro w
    cases h : probeOk env t with
    | true => simp [mainLoop, h, ih (max w t), checkConnLifeRun, eventConsole, eventFile]
    | false => simp [mainLoop, h, checkConnLifeRun, eventConsole, eventFile]


/-! ## Claim theorems and witnesses -/

/-- Claim C1: for every schedule traversal of `main`, if the probe
(`checkConnLife`) for the k-th duration returns failed, then the probe
is never invoked for any later (larger) duration of the schedule —
iteration stops at the first failure. -/
theorem spec_C1_stop_at_first_failure (uri user pw : String) (env : Nat → ProbeEnv)
    (k j : Nat) (hkj : k < j) (hj : j < idlesToCheck.length)
    (hfail : (checkConnLifeRun uri user pw
        (idlesToCheck.get ⟨k, Nat.lt_trans hkj hj⟩)
        (env (idlesToCheck.get ⟨k, Nat.lt_trans hkj hj⟩))).exit =
      ProbeExit.returned false) :
    idlesToCheck.get ⟨j, hj⟩ ∉ (mainLoop uri user pw env idlesToCheck 0).probed := by
  have hk : k < idlesToCheck.length := Nat.lt_trans hkj hj
  have hpfail : probeOk env (idlesToCheck.get ⟨k, hk⟩) = false := by
    simp only [checkConnLifeRun, ProbeExit.returned.injEq] at hfail
    exact hfail
  rw [mainLoop_probed, takeWhile_append_take_one]
  have hlen := takeWhile_length_le (probeOk env) idlesToCheck k hk hpfail
  exact get_not_mem_take (by decide) (by omega) hj

/-- Witness for C1: with probes failing from duration 90 on, duration
120 (index 3) is never probed. -/
theorem spec_C1_witness :
    (checkConnLifeRun "u" "n" "p"
        (idlesToCheck.get ⟨2, by decide⟩)
        ((fun t => if t < 90 then (⟨.ok, .ok, ""⟩ : ProbeEnv) else ⟨.ok, .sessionExpired, ""⟩)
          (idlesToCheck.get ⟨2, by decide⟩))).exit = ProbeExit.returned false ∧
    idlesToCheck.get ⟨3, by decide⟩ ∉
      (mainLoop "u" "n" "p"
        (fun t => if t < 90 then (⟨.ok, .ok, ""⟩ : ProbeEnv) else ⟨.ok, .sessionExpired, ""⟩)
        idlesToCheck 0).probed :=
  ⟨by decide,
    spec_C1_stop_at_first_failure "u" "n" "p"
      (fun t => if t < 90 then (⟨.ok, .ok, ""⟩ : ProbeEnv) else ⟨.ok, .sessionExpired, ""⟩)
      2 3 (by decide) (by decide) (by decide)⟩

/-- Claim C2: for every sequence of probe outcomes, the final
`workingVal` equals the largest duration among the contiguous leading
successes of the schedule (the maximum fold over the initial 0), and it
equals 0 when the very first probe (duration 30) fails. -/
theorem spec_C2_workingVal (uri user pw : String) (env : Nat → ProbeEnv) :
    (mainLoop uri user pw env idlesToCheck 0).workingVal =
      (idlesToCheck.takeWhile (probeOk env)).foldr max 0 ∧
    (probeOk env 30 = false →
      (mainLoop uri user pw env idlesToCheck 0).workingVal = 0) := by
  constructor
  · exact mainLoop_workingVal uri user pw env idlesToCheck 0
  · intro h30
    rw [mainLoop_workingVal]
    have hempty : idlesToCheck.takeWhile (probeOk env) = [] := by
      simp [idlesToCheck, List.takeWhile_cons, h30]
    rw [hempty]
    rfl

/-- Witness for C2: when the first probe fails, `workingVal` is 0. -/
theorem spec_C2_witness :
    (mainLoop "u" "n" "p" (fun _ => (⟨.sessionExpired, .ok, ""⟩ : ProbeEnv))
      idlesToCheck 0).workingVal = 0 :=
  (spec_C2_workingVal "u" "n" "p" (fun _ => ⟨.sessionExpired, .ok, ""⟩)).2 (by decide)

/-- Claim C3, counterexample: in a run where every probe fails
immediately (so `workingVal = 0`), the recommendation is not flagged —
the log file receives the standard report message presenting `-10` as
the recommended value, produced by the same unconditional code path as
any other run. -/
theorem spec_C3_counterexample :
    (mainRun "h" "u" "p" (fun _ => (⟨.sessionExpired, .ok, ""⟩ : ProbeEnv))).workingVal = 0 ∧
    "Recommended Connection lifetime : -10 seconds or lesser" ∈
      (mainRun "h" "u" "p" (fun _ => (⟨.sessionExpired, .ok, ""⟩ : ProbeEnv))).file := by
  constructor
  · decide
  · decide

/-- Claim C3, amended: after the loop ends, the reported recommendation
equals `workingVal - 10` as a Python integer, and the three report
messages (built from that value) are emitted unconditionally at the end
of the log file — including when `workingVal` is 0, where the value
reported is `-10` with no flagging. -/
theorem spec_C3_amended (uriIn userIn pwIn : String) (env : Nat → ProbeEnv) :
    recommendedValue (mainRun uriIn userIn pwIn env).workingVal =
      ((mainRun uriIn userIn pwIn env).workingVal : Int) - 10 ∧
    (finalReport (mainRun uriIn userIn pwIn env).workingVal).map stripColours <:+
      (mainRun uriIn userIn pwIn env).file := by
  constructor
  · rfl
  · show (finalReport (mainRun uriIn userIn pwIn env).workingVal).map stripColours <:+
      mainRunFilePre uriIn ++
        (mainLoop (normalizeURI uriIn) (pyStrip userIn) (pyStrip pwIn) env idlesToCheck 0).file ++
        (finalReport (mainLoop (normalizeURI uriIn) (pyStrip userIn) (pyStrip pwIn) env idlesToCheck 0).workingVal).map stripColours
    rw [List.append_assoc]
    exact ((List.suffix_append _ _).trans (List.suffix_append _ _))

/-- Claim C4: for every probe in which a non-session-expiry exception
is raised (by the first statement, or by the second after a successful
first), `checkConnLife` does not terminate the process and does not
report success: the bare `exit` of line 112 is a no-op, control falls
through to the `finally` cleanup (driver closed), and the default
failed result `False` is returned. -/
theorem spec_C4_other_error_returns_false (u s p : String) (t : Nat) (e : ProbeEnv)
    (herr : e.first = .otherError ∨ (e.first = .ok ∧ e.second = .otherError)) :
    (checkConnLifeRun u s p t e).exit = ProbeExit.returned false ∧
    driverLiveAfter (checkConnLifeRun u s p t e).events = false := by
  refine ⟨?_, driverLive_run u s p t e⟩
  rcases herr with hf | ⟨hf, hs⟩
  · simp [checkConnLifeRun, checkConnIdlePass, hf]
  · simp [checkConnLifeRun, checkConnIdlePass, hf, hs]

/-- Witness for C4: a probe whose first statement raises an unexpected
error returns `False` with the driver closed. -/
theorem spec_C4_witness :
    (checkConnLifeRun "u" "n" "p" 30 ⟨.otherError, .ok, "boom"⟩).exit =
      ProbeExit.returned false ∧
    driverLiveAfter (checkConnLifeRun "u" "n" "p" 30 ⟨.otherError, .ok, "boom"⟩).events =
      false :=
  spec_C4_other_error_returns_false "u" "n" "p" 30 ⟨.otherError, .ok, "boom"⟩ (Or.inl rfl)

/-- Claim C5: for every probe in which the post-sleep read statement
raises a session-expired error, `checkConnLife` returns `False` without
raising: the handler of line 104 records the failure locally (logging
the session-expired message) and the function exits by a normal
return. -/
theorem spec_C5_session_expiry_recovered (u s p : String) (t : Nat) (ed : String) :
    (checkConnLifeRun u s p t ⟨.ok, .sessionExpired, ed⟩).exit =
      ProbeExit.returned false ∧
    Event.log (sessionExpiredMsg t) ∈
      (checkConnLifeRun u s p t ⟨.ok, .sessionExpired, ed⟩).events := by
  constructor
  · rfl
  · simp [checkConnLifeRun, checkConnTail]

/-- Claim C6: for every positive idle duration whose probe reaches the
sleep block, the total slept time equals the requested duration
exactly: one full-duration sleep when the duration is at most 120, and
`duration / 60` sleeps of 60 seconds plus a final sleep of
`duration % 60` seconds otherwise. -/
theorem spec_C6_sleep_total (u s p : String) (t : Nat) (e : ProbeEnv)
    (_hpos : 0 < t) (hfirst : e.first = .ok) :
    (sleptDurations (checkConnLifeRun u s p t e)).sum = t ∧
    (t ≤ 120 → sleptDurations (checkConnLifeRun u s p t e) = [t]) ∧
    (120 < t → sleptDurations (checkConnLifeRun u s p t e) =
      List.replicate (t / 60) 60 ++ [t % 60]) := by
  rw [sleptDurations_run u s p t e hfirst]
  by_cases ht : 120 < t
  · rw [if_pos ht]
    refine ⟨?_, fun hle => absurd ht (by omega), fun _ => rfl⟩
    rw [List.sum_append, List.sum_replicate, smul_eq_mul]
    simp
    omega
  · rw [if_neg ht]
    exact ⟨by simp, fun _ => rfl, fun hgt => absurd hgt ht⟩

/-- Witness for C6: for 185 seconds the probe sleeps three whole
minutes plus five seconds, 185 in total. -/
theorem spec_C6_witness :
    0 < 185 ∧
    (sleptDurations (checkConnLifeRun "u" "n" "p" 185 ⟨.ok, .ok, ""⟩)).sum = 185 ∧
    sleptDurations (checkConnLifeRun "u" "n" "p" 185 ⟨.ok, .ok, ""⟩) =
      List.replicate 3 60 ++ [5] :=
  ⟨by decide,
    (spec_C6_sleep_total "u" "n" "p" 185 ⟨.ok, .ok, ""⟩ (by decide) rfl).1,
    by decide⟩

/-- Claim C7: on every exit path of `checkConnLife` — success,
session-expiry failure, or any other exception — the driver connection
is released before the function returns (the trace always contains a
`driverClosed` event and ends with the driver closed), so no connection
is live across probe invocations. -/
theorem spec_C7_driver_released (u s p : String) (t : Nat) (e : ProbeEnv) :
    driverLiveAfter (checkConnLifeRun u s p t e).events = false ∧
    Event.driverClosed ∈ (checkConnLifeRun u s p t e).events :=
  ⟨driverLive_run u s p t e, by
    cases hf : e.first <;> cases hs : e.second <;>
      simp [checkConnLifeRun, checkConnTail, hf, hs]⟩

/-- Claim C8, counterexample: the URI entered by the user is persisted
to disk — the log file of a concrete run contains the file-only entry
of line 129 carrying the entered URI verbatim. -/
theorem spec_C8_counterexample :
    "URI entered by the user : secret-host.example" ∈
      (mainRun "secret-host.example" "bob" "hunter2"
        (fun _ => (⟨.sessionExpired, .ok, ""⟩ : ProbeEnv))).file := by
  decide

/-- Claim C8, amended: of the connection parameters collected from user
input, the username and the secret credential are never persisted to
disk — the log-file contents are independent of both — while the URI
(and the DBID derived from it) is deliberately written to the log
file. -/
theorem spec_C8_amended (uriIn u₁ p₁ u₂ p₂ : String) (env : Nat → ProbeEnv) :
    (mainRun uriIn u₁ p₁ env).file = (mainRun uriIn u₂ p₂ env).file := by
  have hcreds := mainLoop_creds (normalizeURI uriIn) (pyStrip u₁) (pyStrip p₁)
    (normalizeURI uriIn) (pyStrip u₂) (pyStrip p₂) env idlesToCheck 0
  simp only [mainRun]
  rw [hcreds]

/-- Claim C10: the secret credential read via `getpass` is never passed
to `customLogger` and therefore never appears in the log file or in the
console output: both output channels of a whole run are independent of
the password, which is consumed only as the auth argument of the driver
construction. -/
theorem spec_C10_password_noninterference (uriIn userIn p₁ p₂ : String)
    (env : Nat → ProbeEnv) :
    (mainRun uriIn userIn p₁ env).console = (mainRun uriIn userIn p₂ env).console ∧
    (mainRun uriIn userIn p₁ env).file = (mainRun uriIn userIn p₂ env).file := by
  have hcreds := mainLoop_creds (normalizeURI uriIn) (pyStrip userIn) (pyStrip p₁)
    (normalizeURI uriIn) (pyStrip userIn) (pyStrip p₂) env idlesToCheck 0
  constructor
  · simp only [mainRun]
    rw [hcreds]
  · simp only [mainRun]
    rw [hcreds]

/-- Claim C9, counterexample: the URI normalization of `main` is not
idempotent on all inputs.  For the entered host `neo4j+s:7687://x`,
removing `:7687` splices together a `neo4j+s://` occurrence, so the
first normalization yields `neo4j+ssc://neo4j+s://x:7687`, and a second
normalization strips the inner scheme and yields a different URI. -/
theorem spec_C9_counterexample :
    normalizeURI (normalizeURI "neo4j+s:7687://x") ≠ normalizeURI "neo4j+s:7687://x" := by
  decide

/-- Claim C9, amended: the URI normalization of `main` is idempotent on
bare hosts of the documented shape — strings containing no colon, no
slash, no whitespace, and only case-stable (lowercase) characters:
normalizing the already-normalized URI (scheme and port attached)
yields the same final connection URI as normalizing the bare host. -/
theorem spec_C9_amended {s : String}
    (h : ∀ c ∈ s.data, c ≠ ':' ∧ c ≠ '/' ∧ c.isWhitespace = false ∧ c.toLower = c) :
    normalizeURI (normalizeURI s) = normalizeURI s :=
  normalizeURI_idem h

/-- Witness for C9 (amended): the documented example host satisfies the
bare-host conditions and normalization is idempotent on it. -/
theorem spec_C9_witness :
    (∀ c ∈ ("a1b2c3d4.databases.neo4j.io" : String).data,
      c ≠ ':' ∧ c ≠ '/' ∧ c.isWhitespace = false ∧ c.toLower = c) ∧
    normalizeURI (normalizeURI "a1b2c3d4.databases.neo4j.io") =
      normalizeURI "a1b2c3d4.databases.neo4j.io" :=
  ⟨by decide, spec_C9_amended (by decide)⟩
